import Mathlib

/-!
# Verification of the anki-webapp-backend request handlers

A shallow embedding of the Django request handlers of the anki web backend
(`anki/views.py`, `anki/validation.py`, `anki/config.py`, with the data model
of `api/anki/models.py`).  The database is modelled as explicit lists of rows,
the ORM `objects.get` call as a lookup that fails with the model's
`DoesNotExist` exception (or `MultipleObjectsReturned` when several rows
match), and Python exceptions as an `Except` layer threaded through each
handler together with the database state.  Request payloads arriving as
dynamically typed JSON (`request.data`) are modelled by a `PyVal` type so that
the handlers' runtime `type(...)` checks are meaningful.
-/

namespace AnkiSpec

/-- The Python exceptions the handlers can raise or catch: each Django model
class carries its own `DoesNotExist` and `MultipleObjectsReturned` exception
(identified here by the model name), `ValidationError` comes from the
validation module, `IntegrityError` from unique constraints on save, and
`AttributeError` from attribute access on a wrongly-typed object. -/
inductive PyExc where
  | doesNotExist (model : String)
  | multipleObjectsReturned (model : String)
  | validationError (msg : String)
  | integrityError
  | attributeError
deriving DecidableEq

/-- The relevant part of a DRF `Response`: the symbolic `code` field of the
response body and the HTTP status. -/
structure Response where
  code : String
  status : Nat
deriving DecidableEq

/-- `django.contrib.auth.models.User`; the backend stores the 32-character
email-verification code in the `last_name` field. -/
structure User where
  pk : Nat
  username : String
  email : String
  last_name : String
  is_active : Bool
deriving DecidableEq

/-- `anki.models.Deck` (`api/anki/models.py`): name, color, public flag and
an owner foreign key (the owner's `User.pk`). -/
structure Deck where
  pk : Nat
  name : String
  color : String
  public : Bool
  owner : Nat
deriving DecidableEq

/-- `anki.models.DeckDescription`: a 1:1 record attached to a deck. -/
structure DeckDescription where
  pk : Nat
  description : String
  deck : Nat
deriving DecidableEq

/-- `anki.models.Card`: question/answer belonging to one deck (FK by pk). -/
structure Card where
  pk : Nat
  question : String
  answer : String
  deck : Nat
deriving DecidableEq

/-- `anki.models.Stat`: one feedback event of a user on a card, stamped with
`datetime.now` (modelled by a logical clock). -/
structure Stat where
  pk : Nat
  datetime : Nat
  feedback : Bool
  owner : Nat
  card : Nat
deriving DecidableEq

/-- The relational store: one list of rows per table, fresh-primary-key
counters for the tables the handlers insert into, and the current time used
for `Stat.datetime`'s `default=dt.now`. -/
structure DBState where
  users : List User
  decks : List Deck
  descriptions : List DeckDescription
  cards : List Card
  stats : List Stat
  nextDeckPk : Nat
  nextDescPk : Nat
  nextCardPk : Nat
  nextStatPk : Nat
  now : Nat
deriving DecidableEq

/-- `request.user` as the DRF middleware hands it to the handler: either an
authenticated user (nonempty `username`) or Django's anonymous user, which has
`username = ""` and `is_active = false`. -/
structure Actor where
  pk : Nat
  username : String
  is_active : Bool
deriving DecidableEq

/-- A dynamically typed Python value, as found in `request.data`. -/
inductive PyVal where
  | str (s : String)
  | int (n : Int)
  | bool (b : Bool)
  | list (l : List PyVal)
  | dict (d : List (String × PyVal))
  | none

/-- Python `d.get(k)` / `d[k]` on a dict: the value under the key, `None`
when absent. -/
def dictGet (d : List (String × PyVal)) (k : String) : PyVal :=
  match d.find? (fun kv => kv.fst == k) with
  | Option.some kv => kv.snd
  | Option.none => PyVal.none

/-- Python truthiness test `not x` (true when `x` is falsy). -/
def pyFalsy : PyVal → Bool
  | PyVal.str s => s == ""
  | PyVal.int n => n == 0
  | PyVal.bool b => b == false
  | PyVal.list l => l.isEmpty
  | PyVal.dict d => d.isEmpty
  | PyVal.none => true

/-- Python `type(x) == str`. -/
def isStr : PyVal → Bool
  | PyVal.str _ => true
  | _ => false

/-- Python `type(x) == int`. -/
def isInt : PyVal → Bool
  | PyVal.int _ => true
  | _ => false

/-- Python `type(x) == bool`. -/
def isBool : PyVal → Bool
  | PyVal.bool _ => true
  | _ => false

/-- Python `type(x) == dict`. -/
def isDict : PyVal → Bool
  | PyVal.dict _ => true
  | _ => false

/-- Python `type(x) == list`. -/
def isList : PyVal → Bool
  | PyVal.list _ => true
  | _ => false

/-- Extraction of a string after the type has been checked (the default is
unreachable under the handlers' validation). -/
def PyVal.asStr : PyVal → String
  | PyVal.str s => s
  | _ => ""

/-- Extraction of an int after the type has been checked. -/
def PyVal.asInt : PyVal → Int
  | PyVal.int n => n
  | _ => 0

/-- Extraction of a bool after the type has been checked. -/
def PyVal.asBool : PyVal → Bool
  | PyVal.bool b => b
  | _ => false

/-- Extraction of a dict after the type has been checked. -/
def PyVal.asDict : PyVal → List (String × PyVal)
  | PyVal.dict d => d
  | _ => []

/-- Extraction of a list after the type has been checked. -/
def PyVal.asList : PyVal → List PyVal
  | PyVal.list l => l
  | _ => []

/-- Python `{k1, ..., kn} <= d.keys()`. -/
def hasKeys (d : List (String × PyVal)) (ks : List String) : Bool :=
  ks.all (fun k => d.any (fun kv => kv.fst == k))

/-- Django `Model.objects.get(...)`: returns the single matching row,
raises `Model.DoesNotExist` when no row matches and
`Model.MultipleObjectsReturned` when several do. -/
def ormGet {α : Type} (model : String) (rows : List α) (p : α → Bool) :
    Except PyExc α :=
  match rows.filter p with
  | [x] => Except.ok x
  | [] => Except.error (PyExc.doesNotExist model)
  | _ => Except.error (PyExc.multipleObjectsReturned model)

/-- Whether `except Model.DoesNotExist` catches the exception `e`. -/
def catchesDNE (model : String) : PyExc → Bool
  | PyExc.doesNotExist m => m == model
  | _ => false

/-! ## Configuration (`anki/config.py`) -/

/-- Number of accounts pending email verification limit. -/
def ACCOUNT_VERIFICATION_QUEUE_LIMIT : Nat := 20

/-- Number of decks per user limit. -/
def USER_DECK_LIMIT : Nat := 30

/-- Number of stats of a user on a card limit. -/
def USER_CARD_STAT_LIMIT : Nat := 100

/-- Modelled from the spec: `JWT_AUTH` is imported from `api/settings.py`,
which is not among the sources.  The spec's authentication context (§2) and
policy table (§4.1) describe the system with bearer-token authentication
enforced, so the flag is modelled as `true`. -/
def JWT_AUTH : Bool := true

/-! ## Row updates and inserts -/

/-- `user.save()` on a fetched user: update the row with the same primary
key. -/
def saveUser (s : DBState) (u : User) : DBState :=
  { s with users := s.users.map (fun x => if x.pk == u.pk then u else x) }

/-- `deck.save()` on a fetched deck: update the row with the same primary
key. -/
def updateDeckRow (s : DBState) (d : Deck) : DBState :=
  { s with decks := s.decks.map (fun x => if x.pk == d.pk then d else x) }

/-- `deck.save()` on a newly constructed deck: insert with a fresh primary
key; returns the saved row. -/
def insertDeck (s : DBState) (d : Deck) : Deck × DBState :=
  let d' : Deck := { d with pk := s.nextDeckPk }
  (d', { s with decks := s.decks ++ [d'], nextDeckPk := s.nextDeckPk + 1 })

/-- `description.save()` on a fetched description row. -/
def updateDescRow (s : DBState) (d : DeckDescription) : DBState :=
  { s with descriptions :=
      s.descriptions.map (fun x => if x.pk == d.pk then d else x) }

/-- `description.save()` on a newly constructed description row. -/
def insertDesc (s : DBState) (d : DeckDescription) : DeckDescription × DBState :=
  let d' : DeckDescription := { d with pk := s.nextDescPk }
  (d', { s with descriptions := s.descriptions ++ [d'],
                nextDescPk := s.nextDescPk + 1 })

/-- `card.save()` on a fetched card: update the row with the same primary
key. -/
def updateCardRow (s : DBState) (c : Card) : DBState :=
  { s with cards := s.cards.map (fun x => if x.pk == c.pk then c else x) }

/-- `card.save()` on a newly constructed card: insert with a fresh primary
key. -/
def insertCard (s : DBState) (c : Card) : Card × DBState :=
  let c' : Card := { c with pk := s.nextCardPk }
  (c', { s with cards := s.cards ++ [c'], nextCardPk := s.nextCardPk + 1 })

/-- `stat.save()` on a newly constructed stat: insert with a fresh primary
key; the `datetime` field defaults to the current time (`default=dt.now`),
and the clock advances. -/
def insertStat (s : DBState) (feedback : Bool) (owner card : Nat) :
    Stat × DBState :=
  let t : Stat := { pk := s.nextStatPk, datetime := s.now,
                    feedback := feedback, owner := owner, card := card }
  (t, { s with stats := s.stats ++ [t], nextStatPk := s.nextStatPk + 1,
               now := s.now + 1 })

/-- `stat.delete()`: remove the row with that primary key. -/
def deleteStat (s : DBState) (pk : Nat) : DBState :=
  { s with stats := s.stats.filter (fun t => !(t.pk == pk)) }

/-- `deck.delete()`: cascade delete of the deck, its description, its cards
and the stats of those cards (`on_delete=CASCADE`). -/
def deleteDeckCascade (s : DBState) (deckPk : Nat) : DBState :=
  let dead := s.cards.filter (fun c => c.deck == deckPk)
  { s with decks := s.decks.filter (fun d => !(d.pk == deckPk)),
           descriptions := s.descriptions.filter (fun x => !(x.deck == deckPk)),
           cards := s.cards.filter (fun c => !(c.deck == deckPk)),
           stats := s.stats.filter
             (fun t => !(dead.any (fun c => c.pk == t.card))) }

/-! ## `anki/validation.py` -/

/-- The per-card schema and type checks of the first `for card in cards`
loop of `validate_and_normalize_deck_stuff`; `card.keys()` on a non-dict
element raises `AttributeError`. -/
def checkCardsSchema : List PyVal → Except PyExc Unit
  | [] => Except.ok ()
  | c :: rest =>
    match c with
    | PyVal.dict cd =>
      if !(hasKeys cd ["id", "question", "answer"]) then
        Except.error (PyExc.validationError "card schema")
      else if !(isInt (dictGet cd "id") && isStr (dictGet cd "question") &&
                isStr (dictGet cd "answer")) then
        Except.error (PyExc.validationError "card types")
      else checkCardsSchema rest
    | _ => Except.error PyExc.attributeError

/-- The per-card length checks of the second `for card in cards` loop of
`validate_and_normalize_deck_stuff`. -/
def checkCardsSize : List PyVal → Except PyExc Unit
  | [] => Except.ok ()
  | c :: rest =>
    if (dictGet c.asDict "question").asStr.length > 200 ||
       (dictGet c.asDict "answer").asStr.length > 200 then
      Except.error (PyExc.validationError "card size")
    else checkCardsSize rest

/-- `validate_and_normalize_deck_stuff(data)`.  Note that the deck-name
length condition is the Python chained comparison
`1 > len(deckinfo['name']) > 16`, which means
`1 > len(name) and len(name) > 16`. -/
def validate_and_normalize_deck_stuff (data : List (String × PyVal)) :
    Except PyExc (List (String × PyVal)) := do
  if !(hasKeys data ["deck", "cards"]) then
    throw (PyExc.validationError "schema")
  let deckinfoV := dictGet data "deck"
  let cardsV := dictGet data "cards"
  if !(isDict deckinfoV) || !(isList cardsV) then
    throw (PyExc.validationError "types")
  let deckinfo := deckinfoV.asDict
  let cards := cardsV.asList
  if !(hasKeys deckinfo ["id", "name", "color", "public", "description"]) then
    throw (PyExc.validationError "deck schema")
  if !(isInt (dictGet deckinfo "id") && isStr (dictGet deckinfo "name") &&
       isStr (dictGet deckinfo "color") && isBool (dictGet deckinfo "public") &&
       isStr (dictGet deckinfo "description")) then
    throw (PyExc.validationError "deck types")
  checkCardsSchema cards
  if ((1 > (dictGet deckinfo "name").asStr.length ∧
       (dictGet deckinfo "name").asStr.length > 16) ∨
      (dictGet deckinfo "color").asStr.length ≠ 7 ∨
      (dictGet deckinfo "description").asStr.length > 2500) then
    throw (PyExc.validationError "deck size")
  if cards.length > 100 then
    throw (PyExc.validationError "card number")
  checkCardsSize cards
  pure data

/-! ## Request handlers (`anki/views.py`) -/

/-- `SignUpVerify.get`: consume a 32-character email-verification code.
The `code` query parameter is modelled as a `String`, with `""` standing for
both an absent and an empty parameter (both are falsy in the handler's
`not code` check). -/
def SignUpVerify_get (s : DBState) (code : String) :
    Except PyExc Response × DBState :=
  if code == "" || !(code.length == 32) then
    (Except.ok ⟨"VALIDATION", 400⟩, s)
  else
    match ormGet "User" s.users (fun u => u.last_name == code) with
    | Except.ok user =>
      if user.is_active then
        (Except.ok ⟨"VERIFIED_ALREADY", 200⟩, s)
      else
        (Except.ok ⟨"VERIFIED", 200⟩, saveUser s { user with is_active := true })
    | Except.error e =>
      if catchesDNE "User" e then (Except.ok ⟨"AV_CODE_NOT_VALID", 404⟩, s)
      else (Except.error e, s)

/-- The response of `GetDeckInfo.get`: the envelope plus the serialized deck
(the serializer itself is an external concern; the row is returned). -/
structure DeckInfoOut where
  resp : Response
  deckinfo : Option Deck
deriving DecidableEq

/-- `GetDeckInfo.get`: deck metadata, public decks visible to anyone, private
decks only to their owner (a non-owner gets `DECK_NOT_FOUND`). -/
def GetDeckInfo_get (s : DBState) (username deckname jwt_username : String) :
    Except PyExc DeckInfoOut :=
  if username == "" || deckname == "" then
    Except.ok ⟨⟨"VALIDATION", 400⟩, Option.none⟩
  else
    match ormGet "User" s.users (fun u => u.username == username) with
    | Except.error e =>
      if catchesDNE "User" e then Except.ok ⟨⟨"USER_NOT_FOUND", 404⟩, Option.none⟩
      else Except.error e
    | Except.ok user =>
      match ormGet "Deck" s.decks
          (fun d => d.owner == user.pk && d.name == deckname) with
      | Except.error e =>
        if catchesDNE "Deck" e then
          Except.ok ⟨⟨"DECK_NOT_FOUND", 404⟩, Option.none⟩
        else Except.error e
      | Except.ok deck =>
        if JWT_AUTH && !deck.public && username != jwt_username then
          Except.ok ⟨⟨"DECK_NOT_FOUND", 404⟩, Option.none⟩
        else
          Except.ok ⟨⟨"OKAY", 200⟩, Option.some deck⟩

/-- The response of `GetDeckStats.get`. -/
structure DeckStatsOut where
  resp : Response
  stats : Option (List Stat)
deriving DecidableEq

/-- `GetDeckStats.get`: requires authentication; on an accessible deck it
returns `Stat.objects.all().filter(owner=jwt_user)` — the acting user's
stats, with no filter on the deck or its cards. -/
def GetDeckStats_get (s : DBState) (username deckname : String)
    (actor : Actor) : Except PyExc DeckStatsOut :=
  if username == "" || deckname == "" then
    Except.ok ⟨⟨"VALIDATION", 400⟩, Option.none⟩
  else if actor.username == "" then
    Except.ok ⟨⟨"AUTH_REQUIRED", 401⟩, Option.none⟩
  else
    match ormGet "User" s.users (fun u => u.username == username) with
    | Except.error e =>
      if catchesDNE "User" e then Except.ok ⟨⟨"USER_NOT_FOUND", 404⟩, Option.none⟩
      else Except.error e
    | Except.ok user =>
      match ormGet "Deck" s.decks
          (fun d => d.owner == user.pk && d.name == deckname) with
      | Except.error e =>
        if catchesDNE "Deck" e then
          Except.ok ⟨⟨"DECK_NOT_FOUND", 404⟩, Option.none⟩
        else Except.error e
      | Except.ok deck =>
        if deck.public || username == actor.username then
          Except.ok ⟨⟨"OKAY", 200⟩,
            Option.some (s.stats.filter (fun t => t.owner == actor.pk))⟩
        else
          Except.ok ⟨⟨"DECK_NOT_FOUND", 404⟩, Option.none⟩

/-- The response of `GetDeckStuff.get`. -/
structure DeckStuffOut where
  resp : Response
  deck : Option Deck
  cards : Option (List Card)
deriving DecidableEq

/-- `GetDeckStuff.get`: the full editable view of one's own deck.  The
handler checks authentication and ownership; it has no `is_active` check. -/
def GetDeckStuff_get (s : DBState) (username deckname : String)
    (actor : Actor) : Except PyExc DeckStuffOut :=
  if username == "" || deckname == "" then
    Except.ok ⟨⟨"VALIDATION", 400⟩, Option.none, Option.none⟩
  else if actor.username == "" then
    Except.ok ⟨⟨"AUTH_REQUIRED", 401⟩, Option.none, Option.none⟩
  else if username != actor.username then
    Except.ok ⟨⟨"ACCESS_DENIED", 401⟩, Option.none, Option.none⟩
  else
    match ormGet "Deck" s.decks
        (fun d => d.owner == actor.pk && d.name == deckname) with
    | Except.error e =>
      if catchesDNE "Deck" e then
        Except.ok ⟨⟨"DECK_NOT_FOUND", 404⟩, Option.none, Option.none⟩
      else Except.error e
    | Except.ok deck =>
      Except.ok ⟨⟨"OKAY", 200⟩, Option.some deck,
        Option.some (s.cards.filter (fun c => c.deck == deck.pk))⟩

/-- `RemoveDeck.post`: delete one's own deck (cascading). -/
def RemoveDeck_post (s : DBState) (actor : Actor)
    (data : List (String × PyVal)) : Except PyExc Response × DBState :=
  let usernameV := dictGet data "username"
  let decknameV := dictGet data "deckname"
  if pyFalsy usernameV || !(isStr usernameV) ||
     pyFalsy decknameV || !(isStr decknameV) then
    (Except.ok ⟨"VALIDATION", 400⟩, s)
  else
    let username := usernameV.asStr
    let deckname := decknameV.asStr
    if JWT_AUTH && actor.username == "" then
      (Except.ok ⟨"AUTH_REQUIRED", 401⟩, s)
    else if JWT_AUTH && username != actor.username then
      (Except.ok ⟨"ACCESS_DENIED", 401⟩, s)
    else if !actor.is_active then
      (Except.ok ⟨"VERIFICATION_REQUIRED", 401⟩, s)
    else
      match ormGet "User" s.users (fun u => u.username == username) with
      | Except.error e =>
        if catchesDNE "User" e then (Except.ok ⟨"USER_NOT_FOUND", 404⟩, s)
        else (Except.error e, s)
      | Except.ok user =>
        match ormGet "Deck" s.decks
            (fun d => d.owner == user.pk && d.name == deckname) with
        | Except.error e =>
          if catchesDNE "Deck" e then (Except.ok ⟨"DECK_NOT_FOUND", 404⟩, s)
          else (Except.error e, s)
        | Except.ok deck =>
          (Except.ok ⟨"OKAY", 200⟩, deleteDeckCascade s deck.pk)

/-- Modelled from the spec: saving a new deck whose `(owner, name)` pair
collides with an existing deck raises `IntegrityError`.  The deck model with
this constraint (`anki/models.py` of the current revision) is not among the
sources; the spec states decks are "unique per (owner, name) in practice
(the create-deck flow searches for a free name)". -/
def saveDeckNewUnique (s : DBState) (d : Deck) : Except PyExc (Deck × DBState) :=
  if s.decks.any (fun x => x.owner == d.owner && x.name == d.name) then
    Except.error PyExc.integrityError
  else
    Except.ok (insertDeck s d)

/-- The `while index < USER_DECK_LIMIT` loop of `CreateDeck.post`: try the
names `New Deck 1`, `New Deck 2`, … until a save succeeds; `Option.none`
means the loop ran out (Python's `while … else` branch). -/
def createDeckLoop (s : DBState) (user : User) :
    Nat → Nat → Except PyExc (Option (Deck × DBState))
  | 0, _ => Except.ok Option.none
  | fuel + 1, index =>
    if index < USER_DECK_LIMIT then
      match saveDeckNewUnique s
          ⟨0, "New Deck " ++ toString index, "#6a6a6a", false, user.pk⟩ with
      | Except.ok (d, s') => Except.ok (Option.some (d, s'))
      | Except.error PyExc.integrityError => createDeckLoop s user fuel (index + 1)
      | Except.error e => Except.error e
    else Except.ok Option.none

/-- The response of `CreateDeck.post`. -/
structure CreateDeckOut where
  resp : Response
  decks : Option (List Deck)
deriving DecidableEq

/-- `CreateDeck.post`: create a new deck with an auto-generated unique name,
a default description and one sample card. -/
def CreateDeck_post (s : DBState) (actor : Actor)
    (data : List (String × PyVal)) : Except PyExc CreateDeckOut × DBState :=
  let usernameV := dictGet data "username"
  if pyFalsy usernameV || !(isStr usernameV) then
    (Except.ok ⟨⟨"VALIDATION", 400⟩, Option.none⟩, s)
  else
    let username := usernameV.asStr
    if JWT_AUTH && actor.username == "" then
      (Except.ok ⟨⟨"AUTH_REQUIRED", 401⟩, Option.none⟩, s)
    else if JWT_AUTH && username != actor.username then
      (Except.ok ⟨⟨"ACCESS_DENIED", 401⟩, Option.none⟩, s)
    else if !actor.is_active then
      (Except.ok ⟨⟨"VERIFICATION_REQUIRED", 401⟩, Option.none⟩, s)
    else
      match ormGet "User" s.users (fun u => u.username == username) with
      | Except.error e =>
        if catchesDNE "User" e then
          (Except.ok ⟨⟨"USER_NOT_FOUND", 404⟩, Option.none⟩, s)
        else (Except.error e, s)
      | Except.ok user =>
        if (s.decks.filter (fun d => d.owner == user.pk)).length ≥
            USER_DECK_LIMIT then
          (Except.ok ⟨⟨"TOO_MUCH_DATA", 400⟩, Option.none⟩, s)
        else
          match createDeckLoop s user USER_DECK_LIMIT 1 with
          | Except.error e => (Except.error e, s)
          | Except.ok Option.none =>
            (Except.ok ⟨⟨"DEV_MESSED_UP", 500⟩, Option.none⟩, s)
          | Except.ok (Option.some (deck, s1)) =>
            let s2 := (insertDesc s1 ⟨0, "No description yet.", deck.pk⟩).snd
            let s3 :=
              (insertCard s2 ⟨0, "Is this deck empty?", "It is :)", deck.pk⟩).snd
            (Except.ok ⟨⟨"OKAY", 200⟩, Option.some [deck]⟩, s3)

/-- The response of `PullNextCard.get`. -/
structure PullCardOut where
  resp : Response
  card : Option Card
deriving DecidableEq

/-- `PullNextCard.get`: fetch one card of an accessible deck.  The source
uses `random.choice(cards)`; the random draw is modelled by the oracle
argument `k`, the chosen card being `cards[k % len(cards)]` — for every `k`
the result is a possible outcome of `random.choice`, and every element is
chosen for some `k`.  Note the source returns HTTP status `401` (not `400`)
for the validation failure. -/
def PullNextCard_get (s : DBState) (username deckname : String)
    (actor : Actor) (k : Nat) : Except PyExc PullCardOut :=
  if username == "" || deckname == "" then
    Except.ok ⟨⟨"VALIDATION", 401⟩, Option.none⟩
  else if actor.username == "" then
    Except.ok ⟨⟨"AUTH_REQUIRED", 401⟩, Option.none⟩
  else
    match ormGet "User" s.users (fun u => u.username == username) with
    | Except.error e =>
      if catchesDNE "User" e then Except.ok ⟨⟨"USER_NOT_FOUND", 404⟩, Option.none⟩
      else Except.error e
    | Except.ok user =>
      match ormGet "Deck" s.decks
          (fun d => d.owner == user.pk && d.name == deckname) with
      | Except.error e =>
        if catchesDNE "Deck" e then
          Except.ok ⟨⟨"DECK_NOT_FOUND", 404⟩, Option.none⟩
        else Except.error e
      | Except.ok deck =>
        if actor.username != username && !deck.public then
          Except.ok ⟨⟨"DECK_NOT_FOUND", 404⟩, Option.none⟩
        else
          match s.cards.filter (fun c => c.deck == deck.pk) with
          | [] => Except.ok ⟨⟨"NO_CARDS_IN_DECK", 200⟩, Option.none⟩
          | c :: cs =>
            Except.ok ⟨⟨"OKAY", 200⟩,
              Option.some ((c :: cs).get
                ⟨k % (c :: cs).length, Nat.mod_lt _ (Nat.succ_pos _)⟩)⟩

/-- One comparison step of the oldest-row scan. -/
def earliestStep (acc : Option Stat) (t : Stat) : Option Stat :=
  match acc with
  | Option.none => Option.some t
  | Option.some b =>
    if t.datetime < b.datetime then Option.some t else Option.some b

/-- Modelled from the spec: `Stat.objects.filter(...).earliest()` returns the
single oldest row "by timestamp ascending" (§4.3); the model's `Meta` options
(`anki/models.py` of the current revision) are not among the sources. -/
def earliestStat (l : List Stat) : Option Stat :=
  l.foldl earliestStep Option.none

/-- `PostFeedback.post`: record one feedback event and enforce the per
(owner, card) retention cap.  The card lookup's `except` clause names
`Deck.DoesNotExist` while `Card.objects.get` raises `Card.DoesNotExist`. -/
def PostFeedback_post (s : DBState) (actor : Actor)
    (data : List (String × PyVal)) : Except PyExc Response × DBState :=
  if !(isStr (dictGet data "deck_owner_username")) ||
     !(isStr (dictGet data "deckname")) ||
     !(isInt (dictGet data "card_id")) ||
     !(isBool (dictGet data "feedback")) then
    (Except.ok ⟨"VALIDATION", 400⟩, s)
  else
    let deck_owner_username := (dictGet data "deck_owner_username").asStr
    let deckname := (dictGet data "deckname").asStr
    let card_id := (dictGet data "card_id").asInt
    let feedback := (dictGet data "feedback").asBool
    if actor.username == "" then
      (Except.ok ⟨"AUTH_REQUIRED", 401⟩, s)
    else if !actor.is_active then
      (Except.ok ⟨"VERIFICATION_REQUIRED", 401⟩, s)
    else
      match ormGet "User" s.users
          (fun u => u.username == deck_owner_username) with
      | Except.error e =>
        if catchesDNE "User" e then (Except.ok ⟨"USER_NOT_FOUND", 404⟩, s)
        else (Except.error e, s)
      | Except.ok user =>
        match ormGet "Deck" s.decks
            (fun d => d.owner == user.pk && d.name == deckname) with
        | Except.error e =>
          if catchesDNE "Deck" e then (Except.ok ⟨"DECK_NOT_FOUND", 404⟩, s)
          else (Except.error e, s)
        | Except.ok deck =>
          if actor.username != deck_owner_username && !deck.public then
            (Except.ok ⟨"DECK_NOT_FOUND", 404⟩, s)
          else
            match ormGet "Card" s.cards
                (fun c => c.deck == deck.pk && Int.ofNat c.pk == card_id) with
            | Except.error e =>
              if catchesDNE "Deck" e then (Except.ok ⟨"CARD_NOT_FOUND", 404⟩, s)
              else (Except.error e, s)
            | Except.ok card =>
              let s1 := (insertStat s feedback actor.pk card.pk).snd
              let pairStats := s1.stats.filter
                (fun t => t.owner == actor.pk && t.card == card.pk)
              if pairStats.length > USER_CARD_STAT_LIMIT then
                match earliestStat pairStats with
                | Option.some st => (Except.ok ⟨"OKAY", 200⟩, deleteStat s1 st.pk)
                | Option.none => (Except.error (PyExc.doesNotExist "Stat"), s1)
              else
                (Except.ok ⟨"OKAY", 200⟩, s1)

/-- The response of `UpdateDeckStuff.post`. -/
structure UpdDeckStuffOut where
  resp : Response
  deck : Option Deck
  cards : Option (List Card)
deriving DecidableEq

/-- One iteration of the `for card in cards` upsert loop (step B) of
`UpdateDeckStuff.post`: `Card.objects.get(pk=card['id'])` looks the id up in
the whole card table with no deck filter; a hit updates that card's question
and answer in place (its `deck` field untouched), a `Card.DoesNotExist` miss
creates a new card in the target deck. -/
def updateCardsStep (s : DBState) (deck : Deck)
    (card : List (String × PyVal)) : Except PyExc DBState :=
  match ormGet "Card" s.cards
      (fun c => Int.ofNat c.pk == (dictGet card "id").asInt) with
  | Except.ok card_in_db =>
    Except.ok (updateCardRow s
      { card_in_db with
        question := (dictGet card "question").asStr,
        answer := (dictGet card "answer").asStr })
  | Except.error e =>
    if catchesDNE "Card" e then
      Except.ok (insertCard s
        ⟨0, (dictGet card "question").asStr,
         (dictGet card "answer").asStr, deck.pk⟩).snd
    else Except.error e

/-- The whole step-B loop of `UpdateDeckStuff.post`. -/
def updateCardsLoop (deck : Deck) :
    List PyVal → DBState → Except PyExc Unit × DBState
  | [], s => (Except.ok (), s)
  | c :: rest, s =>
    match updateCardsStep s deck c.asDict with
    | Except.ok s' => updateCardsLoop deck rest s'
    | Except.error e => (Except.error e, s)

/-- Step A of `UpdateDeckStuff.post`: delete the deck's cards whose ids are
not among the ids in the request payload (cascading to their stats). -/
def removeAbsentCards (s : DBState) (deck : Deck)
    (request_cards_ids : List Int) : DBState :=
  let dead := s.cards.filter
    (fun c => c.deck == deck.pk &&
      !(request_cards_ids.contains (Int.ofNat c.pk)))
  { s with
      cards := s.cards.filter
        (fun c => !(c.deck == deck.pk &&
          !(request_cards_ids.contains (Int.ofNat c.pk)))),
      stats := s.stats.filter
        (fun t => !(dead.any (fun c => c.pk == t.card))) }

/-- Steps A, B and 6 of `UpdateDeckStuff.post`, after the deck and its
description have been saved: card deletion, the card upsert loop and the
final re-fetch of the deck by `(name, owner)`. -/
def UpdateDeckStuff_cards (s : DBState) (actor : Actor)
    (deckinfo : List (String × PyVal)) (cards : List PyVal) (deck : Deck) :
    Except PyExc UpdDeckStuffOut × DBState :=
  let request_cards_ids := cards.map (fun c => (dictGet c.asDict "id").asInt)
  let s1 := removeAbsentCards s deck request_cards_ids
  match updateCardsLoop deck cards s1 with
  | (Except.error e, s2) => (Except.error e, s2)
  | (Except.ok _, s2) =>
    match ormGet "Deck" s2.decks
        (fun d => d.name == (dictGet deckinfo "name").asStr &&
          d.owner == actor.pk) with
    | Except.error e => (Except.error e, s2)
    | Except.ok deck2 =>
      (Except.ok ⟨⟨"OKAY", 200⟩, Option.some deck2,
        Option.some (s2.cards.filter (fun c => c.deck == deck2.pk))⟩, s2)

/-- The description upsert of `UpdateDeckStuff.post` (between the deck save
and the card steps). -/
def UpdateDeckStuff_description (s : DBState) (actor : Actor)
    (deckinfo : List (String × PyVal)) (cards : List PyVal) (deck : Deck) :
    Except PyExc UpdDeckStuffOut × DBState :=
  match ormGet "DeckDescription" s.descriptions
      (fun x => x.deck == deck.pk) with
  | Except.ok descr =>
    UpdateDeckStuff_cards
      (updateDescRow s
        { descr with description := (dictGet deckinfo "description").asStr })
      actor deckinfo cards deck
  | Except.error e =>
    if catchesDNE "DeckDescription" e then
      UpdateDeckStuff_cards
        (insertDesc s
          ⟨0, (dictGet deckinfo "description").asStr, deck.pk⟩).snd
        actor deckinfo cards deck
    else (Except.error e, s)

/-- Step 5 of `UpdateDeckStuff.post`: fetch-or-create the deck named in the
payload (the fetch is by `(owner, pk)`), save it, then continue with the
description and the cards. -/
def UpdateDeckStuff_deck (s : DBState) (actor : Actor)
    (data : List (String × PyVal)) : Except PyExc UpdDeckStuffOut × DBState :=
  let deckinfo := (dictGet data "deck").asDict
  let cards := (dictGet data "cards").asList
  match ormGet "Deck" s.decks
      (fun d => d.owner == actor.pk &&
        Int.ofNat d.pk == (dictGet deckinfo "id").asInt) with
  | Except.ok deck0 =>
    let deck :=
      { deck0 with
        name := (dictGet deckinfo "name").asStr,
        color := (dictGet deckinfo "color").asStr,
        public := (dictGet deckinfo "public").asBool }
    UpdateDeckStuff_description (updateDeckRow s deck) actor deckinfo cards deck
  | Except.error e =>
    if catchesDNE "Deck" e then
      if (s.decks.filter (fun d => d.owner == actor.pk)).length ≥
          USER_DECK_LIMIT then
        (Except.ok ⟨⟨"TOO_MUCH_DATA", 400⟩, Option.none, Option.none⟩, s)
      else
        let r := insertDeck s
          ⟨0, (dictGet deckinfo "name").asStr,
           (dictGet deckinfo "color").asStr,
           (dictGet deckinfo "public").asBool, actor.pk⟩
        UpdateDeckStuff_description r.snd actor deckinfo cards r.fst
    else (Except.error e, s)

/-- The body of `UpdateDeckStuff.post` inside the outer `try`. -/
def UpdateDeckStuff_body (s : DBState) (username : String) (actor : Actor)
    (data : List (String × PyVal)) : Except PyExc UpdDeckStuffOut × DBState :=
  if username == "" then
    (Except.ok ⟨⟨"VALIDATION", 400⟩, Option.none, Option.none⟩, s)
  else if actor.username == "" then
    (Except.ok ⟨⟨"AUTH_REQUIRED", 401⟩, Option.none, Option.none⟩, s)
  else if username != actor.username then
    (Except.ok ⟨⟨"ACCESS_DENIED", 401⟩, Option.none, Option.none⟩, s)
  else if !actor.is_active then
    (Except.ok ⟨⟨"VERIFICATION_REQUIRED", 401⟩, Option.none, Option.none⟩, s)
  else
    match validate_and_normalize_deck_stuff data with
    | Except.error (PyExc.validationError _) =>
      (Except.ok ⟨⟨"VALIDATION", 400⟩, Option.none, Option.none⟩, s)
    | Except.error e => (Except.error e, s)
    | Except.ok data' => UpdateDeckStuff_deck s actor data'

/-- `UpdateDeckStuff.post`: the whole handler body is wrapped in
`try: … except Exception as e: print(e)`, so any exception is swallowed and
the handler returns `None` (with all database writes up to that point kept,
there being no transaction). -/
def UpdateDeckStuff_post (s : DBState) (username : String) (actor : Actor)
    (data : List (String × PyVal)) : Option UpdDeckStuffOut × DBState :=
  match UpdateDeckStuff_body s username actor data with
  | (Except.ok out, s') => (Option.some out, s')
  | (Except.error _, s') => (Option.none, s')

/-- The number of `Stat` rows of one `(owner, card)` pair. -/
def pairCount (s : DBState) (ownerPk cardPk : Nat) : Nat :=
  (s.stats.filter (fun t => t.owner == ownerPk && t.card == cardPk)).length

/-- `n` successive `PostFeedback.post` requests with the same payload. -/
def postIter (actor : Actor) (data : List (String × PyVal)) :
    Nat → DBState → DBState
  | 0, s => s
  | n + 1, s => postIter actor data n (PostFeedback_post s actor data).snd

/-! ## Concrete database fixtures used to evaluate the handlers -/

/-- An empty database. -/
def dbEmpty : DBState :=
  { users := [], decks := [], descriptions := [], cards := [], stats := [],
    nextDeckPk := 1, nextDescPk := 1, nextCardPk := 1, nextStatPk := 1,
    now := 0 }

/-- One active user `bob` (pk 1) owning the private deck `d` (pk 1) with a
single card (pk 1). -/
def dbBob : DBState :=
  { users := [⟨1, "bob", "b", "", true⟩],
    decks := [⟨1, "d", "#000000", false, 1⟩],
    descriptions := [], cards := [⟨1, "q", "a", 1⟩], stats := [],
    nextDeckPk := 2, nextDescPk := 1, nextCardPk := 2, nextStatPk := 1,
    now := 0 }

/-- `bob` as the authenticated actor. -/
def bobActor : Actor := ⟨1, "bob", true⟩

/-- A valid post-feedback payload for `bob`'s card. -/
def feedbackData : List (String × PyVal) :=
  [("deck_owner_username", PyVal.str "bob"), ("deckname", PyVal.str "d"),
   ("card_id", PyVal.int 1), ("feedback", PyVal.bool true)]

/-- A post-feedback payload whose `card_id` matches no card of the deck. -/
def feedbackDataBadCard : List (String × PyVal) :=
  [("deck_owner_username", PyVal.str "bob"), ("deckname", PyVal.str "d"),
   ("card_id", PyVal.int 99), ("feedback", PyVal.bool true)]

/-- An inactive (unverified) user `alice` owning the deck `d`. -/
def dbInactiveOwner : DBState :=
  { users := [⟨1, "alice", "a", "", false⟩],
    decks := [⟨1, "d", "#123456", false, 1⟩],
    descriptions := [], cards := [], stats := [],
    nextDeckPk := 2, nextDescPk := 1, nextCardPk := 1, nextStatPk := 1,
    now := 0 }

/-- `bob` owns two public decks `A` (pk 1, no cards) and `B` (pk 2, card 10);
`alice` (pk 2) has one stat on card 10 — a card of deck `B`. -/
def dbStatsLeak : DBState :=
  { users := [⟨1, "bob", "b", "", true⟩, ⟨2, "alice", "a", "", true⟩],
    decks := [⟨1, "A", "#111111", true, 1⟩, ⟨2, "B", "#222222", true, 1⟩],
    descriptions := [], cards := [⟨10, "q", "a", 2⟩],
    stats := [⟨1, 5, true, 2, 10⟩],
    nextDeckPk := 3, nextDescPk := 1, nextCardPk := 11, nextStatPk := 2,
    now := 6 }

/-- `bob` owning one private deck `priv` (pk 1) and one public deck `pub`
(pk 2). -/
def dbVisibility : DBState :=
  { users := [⟨1, "bob", "b", "", true⟩],
    decks := [⟨1, "priv", "#111111", false, 1⟩, ⟨2, "pub", "#222222", true, 1⟩],
    descriptions := [], cards := [], stats := [],
    nextDeckPk := 3, nextDescPk := 1, nextCardPk := 1, nextStatPk := 1,
    now := 0 }

/-- A pending (inactive) user `carol` holding a 32-character verification
code in `last_name`. -/
def dbPending : DBState :=
  { users := [⟨1, "carol", "c", "abcdefghijklmnopqrstuvwxyz123456", false⟩],
    decks := [], descriptions := [], cards := [], stats := [],
    nextDeckPk := 1, nextDescPk := 1, nextCardPk := 1, nextStatPk := 1,
    now := 0 }

/-- `alice` (pk 1) owns deck `A` (pk 1, with a description and no cards);
`bob` (pk 2) owns deck `B` (pk 2) containing card 5. -/
def dbTwoOwners : DBState :=
  { users := [⟨1, "alice", "a", "", true⟩, ⟨2, "bob", "b", "", true⟩],
    decks := [⟨1, "A", "#111111", false, 1⟩, ⟨2, "B", "#222222", false, 2⟩],
    descriptions := [⟨1, "x", 1⟩], cards := [⟨5, "q0", "a0", 2⟩], stats := [],
    nextDeckPk := 3, nextDescPk := 2, nextCardPk := 6, nextStatPk := 1,
    now := 0 }

/-- An update-deck-stuff payload for `alice`'s deck `A` whose single card
entry carries id 5 — the primary key of `bob`'s card in deck `B`. -/
def hijackPayload : List (String × PyVal) :=
  [("deck", PyVal.dict [("id", PyVal.int 1), ("name", PyVal.str "A"),
    ("color", PyVal.str "#333333"), ("public", PyVal.bool false),
    ("description", PyVal.str "dd")]),
   ("cards", PyVal.list [PyVal.dict [("id", PyVal.int 5),
    ("question", PyVal.str "HIJACK"), ("answer", PyVal.str "X")]])]

/-- A deck-stuff payload whose deck name is empty. -/
def emptyNamePayload : List (String × PyVal) :=
  [("deck", PyVal.dict [("id", PyVal.int 1), ("name", PyVal.str ""),
    ("color", PyVal.str "#123456"), ("public", PyVal.bool false),
    ("description", PyVal.str "")]),
   ("cards", PyVal.list [])]

/-- A deck-stuff payload whose deck name has 17 characters. -/
def longNamePayload : List (String × PyVal) :=
  [("deck", PyVal.dict [("id", PyVal.int 1),
    ("name", PyVal.str "aaaaaaaaaaaaaaaaa"),
    ("color", PyVal.str "#123456"), ("public", PyVal.bool false),
    ("description", PyVal.str "")]),
   ("cards", PyVal.list [])]

/-- A remove-deck request body naming `alice`'s deck `d`. -/
def removeAliceData : List (String × PyVal) :=
  [("username", PyVal.str "alice"), ("deckname", PyVal.str "d")]

/-- A create-deck request body naming `alice`. -/
def createAliceData : List (String × PyVal) :=
  [("username", PyVal.str "alice")]

/-! ## Helper lemmas -/

/-- A successful `objects.get` means the row filter produced exactly that
single row. -/
lemma ormGet_ok {α : Type} {model : String} {rows : List α} {p : α → Bool}
    {x : α} (h : ormGet model rows p = Except.ok x) : rows.filter p = [x] := by
  unfold ormGet at h
  cases hf : rows.filter p with
  | nil => rw [hf] at h; exact absurd h (by simp)
  | cons a t =>
    cases t with
    | nil => rw [hf] at h; simp only [Except.ok.injEq] at h; rw [h]
    | cons b t2 => rw [hf] at h; exact absurd h (by simp)

lemma filter_map_of_pred_eq {α : Type} (f : α → α) (p : α → Bool) :
    ∀ l : List α, (∀ x ∈ l, p (f x) = p x) →
      (l.map f).filter p = (l.filter p).map f := by
  intro l
  induction l with
  | nil => intro _; rfl
  | cons a t ih =>
    intro h
    have ha := h a (by simp)
    have ht := ih (fun x hx => h x (by simp [hx]))
    simp only [List.map_cons, List.filter_cons, ha]
    cases hp : p a with
    | false => simp [hp, ht]
    | true => simp [hp, ht]

lemma map_eq_self_of {α : Type} (f : α → α) :
    ∀ l : List α, (∀ x ∈ l, f x = x) → l.map f = l := by
  intro l
  induction l with
  | nil => intro _; rfl
  | cons a t ih =>
    intro h
    simp only [List.map_cons]
    rw [h a (by simp), ih (fun x hx => h x (by simp [hx]))]

lemma filter_filter_comp {α : Type} (p q : α → Bool) :
    ∀ l : List α, (l.filter q).filter p = l.filter (fun a => q a && p a) := by
  intro l
  induction l with
  | nil => rfl
  | cons a t ih =>
    cases hq : q a <;> cases hp : p a <;>
      simp [List.filter_cons, hq, hp, ih]

lemma length_filter_and_le {α : Type} (p q : α → Bool) :
    ∀ l : List α,
      (l.filter (fun a => q a && p a)).length ≤ (l.filter p).length := by
  intro l
  induction l with
  | nil => exact Nat.le_refl 0
  | cons a t ih =>
    cases hq : q a <;> cases hp : p a <;>
      simp [List.filter_cons, hq, hp] <;> omega

lemma length_filter_and_lt {α : Type} (p q : α → Bool) (t : α) :
    ∀ l : List α, t ∈ l → p t = true → q t = false →
      (l.filter (fun a => q a && p a)).length < (l.filter p).length := by
  intro l
  induction l with
  | nil => intro h; cases h
  | cons a l ih =>
    intro hmem hp hq
    rcases List.mem_cons.mp hmem with rfl | hml
    · have hle := length_filter_and_le p q l
      simp [List.filter_cons, hq, hp]
      omega
    · have hlt := ih hml hp hq
      cases hqa : q a <;> cases hpa : p a <;>
        simp [List.filter_cons, hqa, hpa] <;> omega

lemma mem_of_filter_eq_single {α : Type} {l : List α} {p : α → Bool} {x : α}
    (h : l.filter p = [x]) : x ∈ l ∧ p x = true := by
  have hx : x ∈ l.filter p := by rw [h]; exact List.mem_singleton_self x
  exact List.mem_filter.mp hx

lemma eq_of_filter_eq_single {α : Type} {l : List α} {p : α → Bool} {x : α}
    (h : l.filter p = [x]) : ∀ y ∈ l, p y = true → y = x := by
  intro y hy hp
  have hmem : y ∈ l.filter p := List.mem_filter.mpr ⟨hy, hp⟩
  rw [h] at hmem
  exact List.mem_singleton.mp hmem

lemma foldl_earliestStep_some :
    ∀ (l : List Stat) (b : Stat),
      ∃ c, l.foldl earliestStep (Option.some b) = Option.some c ∧
        (c ∈ l ∨ c = b) := by
  intro l
  induction l with
  | nil => exact fun b => ⟨b, rfl, Or.inr rfl⟩
  | cons a l ih =>
    intro b
    simp only [List.foldl_cons]
    by_cases h : a.datetime < b.datetime
    · have step : earliestStep (Option.some b) a = Option.some a := by
        simp [earliestStep, h]
      rw [step]
      obtain ⟨c, hc, hm⟩ := ih a
      refine ⟨c, hc, ?_⟩
      rcases hm with hm | rfl
      · exact Or.inl (List.mem_cons_of_mem _ hm)
      · exact Or.inl (List.mem_cons_self ..)
    · have step : earliestStep (Option.some b) a = Option.some b := by
        simp [earliestStep, h]
      rw [step]
      obtain ⟨c, hc, hm⟩ := ih b
      refine ⟨c, hc, ?_⟩
      rcases hm with hm | rfl
      · exact Or.inl (List.mem_cons_of_mem _ hm)
      · exact Or.inr rfl

/-- A nonempty queryset has an oldest row, and it is one of its rows. -/
lemma earliestStat_mem (l : List Stat) (hne : l ≠ []) :
    ∃ c, earliestStat l = Option.some c ∧ c ∈ l := by
  cases l with
  | nil => exact absurd rfl hne
  | cons a t =>
    unfold earliestStat
    simp only [List.foldl_cons]
    have step : earliestStep Option.none a = Option.some a := rfl
    rw [step]
    obtain ⟨c, hc, hm⟩ := foldl_earliestStep_some t a
    refine ⟨c, hc, ?_⟩
    rcases hm with hm | rfl
    · exact List.mem_cons_of_mem _ hm
    · exact List.mem_cons_self ..

/-! ## Claim theorems -/

/-- C1 (counterexample): the claim requires all four deck-editing operations
to demand `is_active`, with an authenticated owner whose `is_active` is false
receiving the verification-required error; but `GetDeckStuff.get` has no
`is_active` check — at this concrete input the inactive owner `alice` gets
her deck stuff with code `OKAY`, not `VERIFICATION_REQUIRED`. -/
theorem getDeckStuff_inactive_owner_proceeds :
    GetDeckStuff_get dbInactiveOwner "alice" "d" ⟨1, "alice", false⟩ =
      Except.ok ⟨⟨"OKAY", 200⟩, Option.some ⟨1, "d", "#123456", false, 1⟩,
        Option.some []⟩ ∧
    (⟨1, "alice", false⟩ : Actor).is_active = false :=
  ⟨rfl, rfl⟩

/-- C1 (amended): update-deck-stuff, remove-deck and create-deck proceed only
for an authenticated, active owner — an unauthenticated actor gets
`AUTH_REQUIRED`, an owner mismatch gets `ACCESS_DENIED`, and an authenticated
owner with `is_active = false` gets `VERIFICATION_REQUIRED`; get-deck-stuff
checks only authentication and ownership, and for an authenticated owner it
proceeds regardless of `is_active` (returning the stuff or
`DECK_NOT_FOUND`). -/
theorem deck_edit_operations_auth_policy (s : DBState) (actor : Actor)
    (uname dname : String) (dataR dataC dataU : List (String × PyVal))
    (hu : uname ≠ "") (hd : dname ≠ "")
    (hRu : dictGet dataR "username" = PyVal.str uname)
    (hRd : dictGet dataR "deckname" = PyVal.str dname)
    (hCu : dictGet dataC "username" = PyVal.str uname) :
    (actor.username = "" →
      GetDeckStuff_get s uname dname actor =
        Except.ok ⟨⟨"AUTH_REQUIRED", 401⟩, Option.none, Option.none⟩ ∧
      (UpdateDeckStuff_post s uname actor dataU).fst =
        Option.some ⟨⟨"AUTH_REQUIRED", 401⟩, Option.none, Option.none⟩ ∧
      (RemoveDeck_post s actor dataR).fst = Except.ok ⟨"AUTH_REQUIRED", 401⟩ ∧
      (CreateDeck_post s actor dataC).fst =
        Except.ok ⟨⟨"AUTH_REQUIRED", 401⟩, Option.none⟩) ∧
    (actor.username ≠ "" → actor.username ≠ uname →
      GetDeckStuff_get s uname dname actor =
        Except.ok ⟨⟨"ACCESS_DENIED", 401⟩, Option.none, Option.none⟩ ∧
      (UpdateDeckStuff_post s uname actor dataU).fst =
        Option.some ⟨⟨"ACCESS_DENIED", 401⟩, Option.none, Option.none⟩ ∧
      (RemoveDeck_post s actor dataR).fst = Except.ok ⟨"ACCESS_DENIED", 401⟩ ∧
      (CreateDeck_post s actor dataC).fst =
        Except.ok ⟨⟨"ACCESS_DENIED", 401⟩, Option.none⟩) ∧
    (actor.username = uname → actor.is_active = false →
      (UpdateDeckStuff_post s uname actor dataU).fst =
        Option.some ⟨⟨"VERIFICATION_REQUIRED", 401⟩, Option.none, Option.none⟩ ∧
      (RemoveDeck_post s actor dataR).fst =
        Except.ok ⟨"VERIFICATION_REQUIRED", 401⟩ ∧
      (CreateDeck_post s actor dataC).fst =
        Except.ok ⟨⟨"VERIFICATION_REQUIRED", 401⟩, Option.none⟩ ∧
      ∀ out, GetDeckStuff_get s uname dname actor = Except.ok out →
        out.resp.code = "OKAY" ∨ out.resp.code = "DECK_NOT_FOUND") := by
  refine ⟨?_, ?_, ?_⟩
  · intro h
    refine ⟨?_, ?_, ?_, ?_⟩
    · unfold GetDeckStuff_get; simp [hu, hd, h]
    · unfold UpdateDeckStuff_post UpdateDeckStuff_body; simp [hu, h]
    · unfold RemoveDeck_post
      simp [hRu, hRd, pyFalsy, isStr, PyVal.asStr, hu, hd, h, JWT_AUTH]
    · unfold CreateDeck_post
      simp [hCu, pyFalsy, isStr, PyVal.asStr, hu, h, JWT_AUTH]
  · intro h hne
    refine ⟨?_, ?_, ?_, ?_⟩
    · unfold GetDeckStuff_get; simp [hu, hd, h, Ne.symm hne]
    · unfold UpdateDeckStuff_post UpdateDeckStuff_body
      simp [hu, h, Ne.symm hne]
    · unfold RemoveDeck_post
      simp [hRu, hRd, pyFalsy, isStr, PyVal.asStr, hu, hd, h, Ne.symm hne,
        JWT_AUTH]
    · unfold CreateDeck_post
      simp [hCu, pyFalsy, isStr, PyVal.asStr, hu, h, Ne.symm hne, JWT_AUTH]
  · intro h hia
    have ha : actor.username ≠ "" := by rw [h]; exact hu
    refine ⟨?_, ?_, ?_, ?_⟩
    · unfold UpdateDeckStuff_post UpdateDeckStuff_body
      simp [hu, h, ha, hia]
    · unfold RemoveDeck_post
      simp [hRu, hRd, pyFalsy, isStr, PyVal.asStr, hu, hd, h, ha, hia,
        JWT_AUTH]
    · unfold CreateDeck_post
      simp [hCu, pyFalsy, isStr, PyVal.asStr, hu, h, ha, hia, JWT_AUTH]
    · intro out hout
      unfold GetDeckStuff_get at hout
      simp only [hu, hd, h, ha] at hout
      revert hout
      cases hgd : ormGet "Deck" s.decks
          (fun d => d.owner == actor.pk && d.name == dname) with
      | ok deck =>
        simp [hu, hd, h, hgd]
        intro hout
        rw [← hout]
        left
        rfl
      | error e =>
        cases hc : catchesDNE "Deck" e with
        | true =>
          simp [hu, hd, h, hgd, hc]
          intro hout
          rw [← hout]
          right
          rfl
        | false =>
          simp [hu, hd, h, hgd, hc]

/-- C1 (witness): the amended theorem applied to the anonymous actor over an
empty database — all four operations answer `AUTH_REQUIRED`. -/
theorem deck_edit_operations_auth_policy_witness :
    GetDeckStuff_get dbEmpty "alice" "d" ⟨0, "", false⟩ =
      Except.ok ⟨⟨"AUTH_REQUIRED", 401⟩, Option.none, Option.none⟩ ∧
    (UpdateDeckStuff_post dbEmpty "alice" ⟨0, "", false⟩ []).fst =
      Option.some ⟨⟨"AUTH_REQUIRED", 401⟩, Option.none, Option.none⟩ ∧
    (RemoveDeck_post dbEmpty ⟨0, "", false⟩ removeAliceData).fst =
      Except.ok ⟨"AUTH_REQUIRED", 401⟩ ∧
    (CreateDeck_post dbEmpty ⟨0, "", false⟩ createAliceData).fst =
      Except.ok ⟨⟨"AUTH_REQUIRED", 401⟩, Option.none⟩ :=
  (deck_edit_operations_auth_policy dbEmpty ⟨0, "", false⟩ "alice" "d"
    removeAliceData createAliceData [] (by decide) (by decide)
    rfl rfl rfl).1 rfl

/-- C2 (code bug): at this input the authenticated, allowed get-deck-stats
request for deck `A` returns `alice`'s stat on card 10, although the only
card with pk 10 lives in deck `B` (pk 2), not in the requested deck `A`
(pk 1) — the handler filters stats by owner only, never by deck, contrary to
the claim's "stats on cards of other decks are excluded". -/
theorem getDeckStats_returns_foreign_deck_stats :
    GetDeckStats_get dbStatsLeak "bob" "A" ⟨2, "alice", true⟩ =
      Except.ok ⟨⟨"OKAY", 200⟩, Option.some [⟨1, 5, true, 2, 10⟩]⟩ ∧
    dbStatsLeak.cards = [⟨10, "q", "a", 2⟩] ∧
    ormGet "Deck" dbStatsLeak.decks (fun d => d.owner == 1 && d.name == "A") =
      Except.ok ⟨1, "A", "#111111", true, 1⟩ :=
  ⟨rfl, rfl, rfl⟩

/-- C3 (confirmed): when the named user and deck exist, read-deck-info on a
private deck by any actor other than the owner (the anonymous actor, whose
jwt username is `""`, included) answers `DECK_NOT_FOUND`, and on a public
deck it returns the deck to any actor. -/
theorem getDeckInfo_visibility (s : DBState)
    (username deckname jwt_username : String) (user : User) (deck : Deck)
    (hu : username ≠ "") (hd : deckname ≠ "")
    (hgu : ormGet "User" s.users (fun u => u.username == username) =
      Except.ok user)
    (hgd : ormGet "Deck" s.decks
      (fun d => d.owner == user.pk && d.name == deckname) = Except.ok deck) :
    (deck.public = false → jwt_username ≠ username →
      GetDeckInfo_get s username deckname jwt_username =
        Except.ok ⟨⟨"DECK_NOT_FOUND", 404⟩, Option.none⟩) ∧
    (deck.public = true →
      GetDeckInfo_get s username deckname jwt_username =
        Except.ok ⟨⟨"OKAY", 200⟩, Option.some deck⟩) := by
  unfold GetDeckInfo_get
  simp only [hgu]
  simp only [hgd]
  constructor
  · intro hpub hjwt
    simp [hu, hd, JWT_AUTH, hpub, bne_iff_ne, Ne.symm hjwt]
  · intro hpub
    simp [hu, hd, JWT_AUTH, hpub]

/-- C3 (witness): a stranger (and likewise the anonymous actor) is told the
private deck does not exist, while the public deck is served to anyone. -/
theorem getDeckInfo_visibility_witness :
    GetDeckInfo_get dbVisibility "bob" "priv" "eve" =
      Except.ok ⟨⟨"DECK_NOT_FOUND", 404⟩, Option.none⟩ ∧
    GetDeckInfo_get dbVisibility "bob" "pub" "" =
      Except.ok ⟨⟨"OKAY", 200⟩, Option.some ⟨2, "pub", "#222222", true, 1⟩⟩ :=
  ⟨(getDeckInfo_visibility dbVisibility "bob" "priv" "eve"
      ⟨1, "bob", "b", "", true⟩ ⟨1, "priv", "#111111", false, 1⟩
      (by decide) (by decide) rfl rfl).1 rfl (by decide),
   (getDeckInfo_visibility dbVisibility "bob" "pub" ""
      ⟨1, "bob", "b", "", true⟩ ⟨2, "pub", "#222222", true, 1⟩
      (by decide) (by decide) rfl rfl).2 rfl⟩

set_option maxRecDepth 10000 in
/-- C4 (confirmed): a successful post-feedback first appends the new `Stat`
row and only then, if the pair count exceeds `USER_CARD_STAT_LIMIT` (100),
deletes the single oldest row of the pair, so the count never exceeds 100;
concretely, 101 posts for the same `(user, card)` pair starting from an empty
log leave exactly the 100 most recent rows (timestamps 1 … 100 of the 101
inserted ones, the oldest, 0, evicted). -/
theorem postFeedback_stat_retention_cap (s : DBState) (actor : Actor)
    (data : List (String × PyVal)) (user : User) (deck : Deck) (card : Card)
    (hv1 : isStr (dictGet data "deck_owner_username") = true)
    (hv2 : isStr (dictGet data "deckname") = true)
    (hv3 : isInt (dictGet data "card_id") = true)
    (hv4 : isBool (dictGet data "feedback") = true)
    (ha : actor.username ≠ "")
    (hact : actor.is_active = true)
    (hgu : ormGet "User" s.users
      (fun u => u.username == (dictGet data "deck_owner_username").asStr) =
      Except.ok user)
    (hgd : ormGet "Deck" s.decks
      (fun d => d.owner == user.pk &&
        d.name == (dictGet data "deckname").asStr) = Except.ok deck)
    (hvis : actor.username = (dictGet data "deck_owner_username").asStr ∨
      deck.public = true)
    (hgc : ormGet "Card" s.cards
      (fun c => c.deck == deck.pk &&
        Int.ofNat c.pk == (dictGet data "card_id").asInt) = Except.ok card)
    (h100 : pairCount s actor.pk card.pk ≤ 100) :
    ((PostFeedback_post s actor data).fst = Except.ok ⟨"OKAY", 200⟩ ∧
     pairCount (PostFeedback_post s actor data).snd actor.pk card.pk ≤ 100) ∧
    ((postIter bobActor feedbackData 101 dbBob).stats.map Stat.datetime =
       List.range' 1 100 ∧
     pairCount (postIter bobActor feedbackData 101 dbBob) 1 1 = 100) := by
  constructor
  · have hviscond : (actor.username !=
        (dictGet data "deck_owner_username").asStr && !deck.public) = false := by
      rcases hvis with h | h <;> simp [h]
    have hins : (insertStat s ((dictGet data "feedback").asBool) actor.pk
          card.pk).snd.stats.filter
          (fun t => t.owner == actor.pk && t.card == card.pk) =
        s.stats.filter (fun t => t.owner == actor.pk && t.card == card.pk) ++
          [⟨s.nextStatPk, s.now, (dictGet data "feedback").asBool,
            actor.pk, card.pk⟩] := by
      simp [insertStat, List.filter_append]
    unfold PostFeedback_post
    simp only [hv1, hv2, hv3, hv4, Bool.not_true, Bool.or_self, Bool.or_false,
      Bool.false_or, if_false]
    simp only [hgu]
    simp only [hgd]
    simp only [hviscond]
    simp only [hgc]
    simp only [ha, hact, hins]
    rw [if_neg (by simp)]
    rw [if_neg (by simp [ha])]
    rw [if_neg (by simp)]
    rw [if_neg (by simp)]
    simp only [List.length_append, List.length_singleton]
    have hpc : pairCount s actor.pk card.pk = (s.stats.filter
        (fun t => t.owner == actor.pk && t.card == card.pk)).length := rfl
    rw [hpc] at h100
    by_cases hc : (s.stats.filter
        (fun t => t.owner == actor.pk && t.card == card.pk)).length + 1 >
        USER_CARD_STAT_LIMIT
    · rw [if_pos hc]
      have hne : s.stats.filter
          (fun t => t.owner == actor.pk && t.card == card.pk) ++
          [⟨s.nextStatPk, s.now, (dictGet data "feedback").asBool,
            actor.pk, card.pk⟩] ≠ [] := by simp
      obtain ⟨st, hst, hstmem⟩ := earliestStat_mem _ hne
      rw [hst]
      refine ⟨rfl, ?_⟩
      have hstmem2 : st ∈ (insertStat s ((dictGet data "feedback").asBool)
          actor.pk card.pk).snd.stats.filter
          (fun t => t.owner == actor.pk && t.card == card.pk) := by
        rw [hins]; exact hstmem
      have hstmem3 := List.mem_filter.mp hstmem2
      have hlt := length_filter_and_lt
        (fun t => t.owner == actor.pk && t.card == card.pk)
        (fun t => !(t.pk == st.pk)) st
        (insertStat s ((dictGet data "feedback").asBool) actor.pk
          card.pk).snd.stats
        hstmem3.1 hstmem3.2 (by simp)
      rw [hins] at hlt
      show ((((insertStat s ((dictGet data "feedback").asBool) actor.pk
          card.pk).snd.stats.filter (fun t => !(t.pk == st.pk))).filter
          (fun t => t.owner == actor.pk && t.card == card.pk)).length) ≤ 100
      rw [filter_filter_comp]
      simp only [List.length_append, List.length_singleton] at hlt
      unfold USER_CARD_STAT_LIMIT at hc
      omega
    · rw [if_neg hc]
      refine ⟨rfl, ?_⟩
      show (((insertStat s ((dictGet data "feedback").asBool) actor.pk
          card.pk).snd.stats.filter
          (fun t => t.owner == actor.pk && t.card == card.pk)).length) ≤ 100
      rw [hins]
      simp only [List.length_append, List.length_singleton]
      unfold USER_CARD_STAT_LIMIT at hc
      omega
  · exact ⟨by decide, by decide⟩

/-- C4 (witness): the retention theorem applied to `bob` posting feedback on
his own card over the one-card database. -/
theorem postFeedback_stat_retention_cap_witness :
    (PostFeedback_post dbBob bobActor feedbackData).fst =
      Except.ok ⟨"OKAY", 200⟩ ∧
    pairCount (PostFeedback_post dbBob bobActor feedbackData).snd
      bobActor.pk (1 : Nat) ≤ 100 :=
  (postFeedback_stat_retention_cap dbBob bobActor feedbackData
    ⟨1, "bob", "b", "", true⟩ ⟨1, "d", "#000000", false, 1⟩ ⟨1, "q", "a", 1⟩
    rfl rfl rfl rfl (by decide) rfl rfl rfl (Or.inl rfl) rfl (by decide)).1

/-- C5 (confirmed): for a pending user holding a valid 32-character
verification code, the first verification call answers `VERIFIED` and sets
`is_active`; the second call with the same code answers `VERIFIED_ALREADY`
and leaves the state untouched — verifying twice equals verifying once. -/
theorem signUpVerify_idempotent (s : DBState) (code : String) (user : User)
    (h32 : code.length = 32)
    (hnd : (s.users.map User.pk).Nodup)
    (hget : ormGet "User" s.users (fun u => u.last_name == code) =
      Except.ok user)
    (hpend : user.is_active = false) :
    (SignUpVerify_get s code).fst = Except.ok ⟨"VERIFIED", 200⟩ ∧
    SignUpVerify_get (SignUpVerify_get s code).snd code =
      (Except.ok ⟨"VERIFIED_ALREADY", 200⟩, (SignUpVerify_get s code).snd) := by
  have hcode : code ≠ "" := by
    intro h
    rw [h] at h32
    simp at h32
  have hfilter := ormGet_ok hget
  have hmem := mem_of_filter_eq_single hfilter
  have hrun1 : SignUpVerify_get s code =
      (Except.ok ⟨"VERIFIED", 200⟩,
        saveUser s { user with is_active := true }) := by
    unfold SignUpVerify_get
    simp only [hget]
    simp [hcode, h32, hpend]
  have husers : (saveUser s { user with is_active := true }).users.filter
      (fun u => u.last_name == code) = [{ user with is_active := true }] := by
    show (s.users.map fun x =>
      if x.pk == ({ user with is_active := true } : User).pk then
        { user with is_active := true } else x).filter
      (fun u => u.last_name == code) = _
    rw [filter_map_of_pred_eq _ _ _ ?hpred]
    case hpred =>
      intro x hx
      cases hpk : x.pk == ({ user with is_active := true } : User).pk with
      | false => simp [hpk]
      | true =>
        have hxu : x = user := by
          apply List.inj_on_of_nodup_map hnd hx hmem.1
          simpa using hpk
        simp [hpk, hxu]
    · rw [hfilter]
      simp
  have hget2 : ormGet "User"
      (saveUser s { user with is_active := true }).users
      (fun u => u.last_name == code) =
      Except.ok { user with is_active := true } := by
    unfold ormGet
    rw [husers]
  refine ⟨by rw [hrun1], ?_⟩
  rw [hrun1]
  unfold SignUpVerify_get
  simp only [hget2]
  simp [hcode, h32]

/-- C5 (witness): the idempotence theorem applied to the pending user
`carol` and her concrete 32-character code. -/
theorem signUpVerify_idempotent_witness :
    (SignUpVerify_get dbPending "abcdefghijklmnopqrstuvwxyz123456").fst =
      Except.ok ⟨"VERIFIED", 200⟩ ∧
    SignUpVerify_get
        (SignUpVerify_get dbPending "abcdefghijklmnopqrstuvwxyz123456").snd
        "abcdefghijklmnopqrstuvwxyz123456" =
      (Except.ok ⟨"VERIFIED_ALREADY", 200⟩,
        (SignUpVerify_get dbPending "abcdefghijklmnopqrstuvwxyz123456").snd) :=
  signUpVerify_idempotent dbPending "abcdefghijklmnopqrstuvwxyz123456"
    ⟨1, "carol", "c", "abcdefghijklmnopqrstuvwxyz123456", false⟩
    (by decide) (by decide) rfl rfl

/-- C6 (code bug): the claim requires every handler to answer malformed input
with a validation error of HTTP status 400, but `PullNextCard.get` answers
its validation failure (here: a missing/empty `deck_owner_username`) with the
`VALIDATION` code under HTTP status 401. -/
theorem pullNextCard_validation_status_401 :
    PullNextCard_get dbEmpty "" "d" ⟨1, "x", true⟩ 0 =
      Except.ok ⟨⟨"VALIDATION", 401⟩, Option.none⟩ :=
  rfl

/-- C7 (confirmed): a payload card entry whose id is the primary key of any
existing card — even one in a different owner's deck — makes the upsert loop
update that card's question and answer in place, leaving it attached to its
original deck and adding nothing to the target deck; an id matching no card
in the whole table creates a fresh card in the target deck.  Concretely,
`alice`'s update of her deck `A` with a card entry carrying `bob`'s card id 5
rewrites `bob`'s card inside deck `B` and leaves deck `A` empty. -/
theorem updateDeckStuff_card_upsert_global (s : DBState) (deck : Deck)
    (entry : List (String × PyVal)) (i : Int) (q a : String) (c0 : Card)
    (hid : dictGet entry "id" = PyVal.int i)
    (hq : dictGet entry "question" = PyVal.str q)
    (ha : dictGet entry "answer" = PyVal.str a) :
    (ormGet "Card" s.cards (fun c => Int.ofNat c.pk == i) = Except.ok c0 →
      updateCardsStep s deck entry =
        Except.ok (updateCardRow s ⟨c0.pk, q, a, c0.deck⟩) ∧
      (updateCardRow s ⟨c0.pk, q, a, c0.deck⟩).cards.length =
        s.cards.length ∧
      (¬ c0.deck = deck.pk →
        (updateCardRow s ⟨c0.pk, q, a, c0.deck⟩).cards.filter
            (fun c => c.deck == deck.pk) =
          s.cards.filter (fun c => c.deck == deck.pk))) ∧
    (ormGet "Card" s.cards (fun c => Int.ofNat c.pk == i) =
        Except.error (PyExc.doesNotExist "Card") →
      updateCardsStep s deck entry =
        Except.ok { s with
          cards := s.cards ++ [⟨s.nextCardPk, q, a, deck.pk⟩],
          nextCardPk := s.nextCardPk + 1 }) ∧
    ((UpdateDeckStuff_post dbTwoOwners "alice" ⟨1, "alice", true⟩
        hijackPayload).snd.cards = [⟨5, "HIJACK", "X", 2⟩] ∧
     (UpdateDeckStuff_post dbTwoOwners "alice" ⟨1, "alice", true⟩
        hijackPayload).fst =
       Option.some ⟨⟨"OKAY", 200⟩, Option.some ⟨1, "A", "#333333", false, 1⟩,
         Option.some []⟩) := by
  refine ⟨?_, ?_, rfl, rfl⟩
  · intro hhit
    have hfilter := ormGet_ok hhit
    have hmem := mem_of_filter_eq_single hfilter
    refine ⟨?_, by simp [updateCardRow], ?_⟩
    · unfold updateCardsStep
      simp only [hid, hq, ha, PyVal.asInt, PyVal.asStr]
      simp only [hhit]
    · intro hdk
      show (s.cards.map fun x =>
          if x.pk == (⟨c0.pk, q, a, c0.deck⟩ : Card).pk then
            ⟨c0.pk, q, a, c0.deck⟩ else x).filter
          (fun c => c.deck == deck.pk) = _
      rw [filter_map_of_pred_eq _ _ _ ?hpred]
      case hpred =>
        intro x hx
        cases hpk : x.pk == (⟨c0.pk, q, a, c0.deck⟩ : Card).pk with
        | false => simp [hpk]
        | true =>
          have hxc : x = c0 := by
            apply eq_of_filter_eq_single hfilter x hx
            have hpk2 : x.pk = c0.pk := by simpa using hpk
            rw [hpk2]
            exact hmem.2
          simp [hpk, hxc]
      · rw [map_eq_self_of]
        intro x hx
        have hx' := List.mem_filter.mp hx
        cases hpk : x.pk == (⟨c0.pk, q, a, c0.deck⟩ : Card).pk with
        | false => simp [hpk]
        | true =>
          have hxc : x = c0 := by
            apply eq_of_filter_eq_single hfilter x hx'.1
            have hpk2 : x.pk = c0.pk := by simpa using hpk
            rw [hpk2]
            exact hmem.2
          rw [hxc] at hx'
          have hdeck : c0.deck = deck.pk := by simpa using hx'.2
          exact absurd hdeck hdk
  · intro hmiss
    unfold updateCardsStep
    simp only [hid, hq, ha, PyVal.asInt, PyVal.asStr]
    simp only [hmiss]
    simp [catchesDNE, insertCard]

/-- C7 (witness): the upsert theorem applied to `alice`'s cross-deck card
entry — the step rewrites `bob`'s card 5 in place. -/
theorem updateDeckStuff_card_upsert_global_witness :
    updateCardsStep dbTwoOwners ⟨1, "A", "#111111", false, 1⟩
        [("id", PyVal.int 5), ("question", PyVal.str "HIJACK"),
         ("answer", PyVal.str "X")] =
      Except.ok (updateCardRow dbTwoOwners ⟨5, "HIJACK", "X", 2⟩) :=
  ((updateDeckStuff_card_upsert_global dbTwoOwners ⟨1, "A", "#111111", false, 1⟩
    [("id", PyVal.int 5), ("question", PyVal.str "HIJACK"),
     ("answer", PyVal.str "X")] 5 "HIJACK" "X" ⟨5, "q0", "a0", 2⟩
    rfl rfl rfl).1 rfl).1

/-- C8 (confirmed): a post-feedback request that passes validation,
authentication, activity, user, deck and visibility checks but whose
`card_id` matches no card of the deck never produces the `CARD_NOT_FOUND`
response: the failing lookup raises `Card.DoesNotExist` while the `except`
clause catches `Deck.DoesNotExist`, so the exception propagates out of the
handler unhandled (and the state is untouched). -/
theorem postFeedback_cardNotFound_unreachable (s : DBState) (actor : Actor)
    (data : List (String × PyVal)) (user : User) (deck : Deck)
    (hv1 : isStr (dictGet data "deck_owner_username") = true)
    (hv2 : isStr (dictGet data "deckname") = true)
    (hv3 : isInt (dictGet data "card_id") = true)
    (hv4 : isBool (dictGet data "feedback") = true)
    (ha : actor.username ≠ "")
    (hact : actor.is_active = true)
    (hgu : ormGet "User" s.users
      (fun u => u.username == (dictGet data "deck_owner_username").asStr) =
      Except.ok user)
    (hgd : ormGet "Deck" s.decks
      (fun d => d.owner == user.pk &&
        d.name == (dictGet data "deckname").asStr) = Except.ok deck)
    (hvis : actor.username = (dictGet data "deck_owner_username").asStr ∨
      deck.public = true)
    (hgc : ormGet "Card" s.cards
      (fun c => c.deck == deck.pk &&
        Int.ofNat c.pk == (dictGet data "card_id").asInt) =
      Except.error (PyExc.doesNotExist "Card")) :
    PostFeedback_post s actor data =
      (Except.error (PyExc.doesNotExist "Card"), s) := by
  have hviscond : (actor.username !=
      (dictGet data "deck_owner_username").asStr && !deck.public) = false := by
    rcases hvis with h | h <;> simp [h]
  unfold PostFeedback_post
  simp only [hv1, hv2, hv3, hv4, Bool.not_true, Bool.or_self, Bool.or_false,
    Bool.false_or, if_false]
  simp only [hgu]
  simp only [hgd]
  simp only [hviscond]
  simp only [hgc]
  simp [ha, hact, catchesDNE]

/-- C8 (witness): `bob` posts feedback with `card_id = 99`, which no card of
his deck has — the handler run ends in the unhandled `Card.DoesNotExist`. -/
theorem postFeedback_cardNotFound_unreachable_witness :
    PostFeedback_post dbBob bobActor feedbackDataBadCard =
      (Except.error (PyExc.doesNotExist "Card"), dbBob) :=
  postFeedback_cardNotFound_unreachable dbBob bobActor feedbackDataBadCard
    ⟨1, "bob", "b", "", true⟩ ⟨1, "d", "#000000", false, 1⟩
    rfl rfl rfl rfl (by decide) rfl rfl rfl (Or.inl rfl) rfl

/-- C9 (confirmed): an authenticated pull-next-card on an accessible deck
answers `NO_CARDS_IN_DECK` with HTTP status 200 — a success response, not an
error and not a card — whenever the deck has zero cards; with at least one
card it returns, for every draw `k` of the random-choice oracle, exactly one
card and that card belongs to the deck. -/
theorem pullNextCard_empty_and_nonempty (s : DBState)
    (username deckname : String) (actor : Actor) (user : User) (deck : Deck)
    (k : Nat)
    (hu : username ≠ "") (hd : deckname ≠ "") (ha : actor.username ≠ "")
    (hgu : ormGet "User" s.users (fun u => u.username == username) =
      Except.ok user)
    (hgd : ormGet "Deck" s.decks
      (fun d => d.owner == user.pk && d.name == deckname) = Except.ok deck)
    (hvis : actor.username = username ∨ deck.public = true) :
    (s.cards.filter (fun c => c.deck == deck.pk) = [] →
      PullNextCard_get s username deckname actor k =
        Except.ok ⟨⟨"NO_CARDS_IN_DECK", 200⟩, Option.none⟩) ∧
    (∀ c cs, s.cards.filter (fun c => c.deck == deck.pk) = c :: cs →
      PullNextCard_get s username deckname actor k =
        Except.ok ⟨⟨"OKAY", 200⟩, Option.some ((c :: cs).get
          ⟨k % (c :: cs).length, Nat.mod_lt _ (Nat.succ_pos _)⟩)⟩ ∧
      ((c :: cs).get ⟨k % (c :: cs).length, Nat.mod_lt _ (Nat.succ_pos _)⟩
        ∈ s.cards ∧
       ((c :: cs).get ⟨k % (c :: cs).length,
          Nat.mod_lt _ (Nat.succ_pos _)⟩).deck = deck.pk)) := by
  have hviscond : (actor.username != username && !deck.public) = false := by
    rcases hvis with h | h <;> simp [h]
  constructor
  · intro hempty
    unfold PullNextCard_get
    simp only [hgu]
    simp only [hgd]
    simp [hu, hd, ha, hviscond, hempty]
  · intro c cs hcards
    have hmem0 : (c :: cs).get
        ⟨k % (c :: cs).length, Nat.mod_lt _ (Nat.succ_pos _)⟩ ∈ c :: cs :=
      List.get_mem ..
    have hmem2 : (c :: cs).get
        ⟨k % (c :: cs).length, Nat.mod_lt _ (Nat.succ_pos _)⟩
        ∈ List.filter (fun c => c.deck == deck.pk) s.cards := by
      rw [hcards]; exact hmem0
    have hmem1 := List.mem_filter.mp hmem2
    refine ⟨?_, hmem1.1, by simpa using hmem1.2⟩
    unfold PullNextCard_get
    simp only [hgu]
    simp only [hgd]
    simp only [hcards]
    simp [hu, hd, ha, hviscond]

/-- C9 (witness): the theorem applied to `bob`'s public deck `pub`, which has
zero cards — the stranger `eve` receives the `NO_CARDS_IN_DECK` signal. -/
theorem pullNextCard_empty_and_nonempty_witness :
    PullNextCard_get dbVisibility "bob" "pub" ⟨9, "eve", true⟩ 0 =
      Except.ok ⟨⟨"NO_CARDS_IN_DECK", 200⟩, Option.none⟩ :=
  (pullNextCard_empty_and_nonempty dbVisibility "bob" "pub" ⟨9, "eve", true⟩
    ⟨1, "bob", "b", "", true⟩ ⟨2, "pub", "#222222", true, 1⟩ 0
    (by decide) (by decide) (by decide) rfl rfl (Or.inr rfl)).1 rfl

/-- C10 (code bug): deck-stuff validation accepts a payload whose deck name
is empty and one whose deck name has 17 characters — the claimed 1–16 bound
is never enforced because the source's chained comparison
`1 > len(deckinfo['name']) > 16` is unsatisfiable (the color and description
checks in the same condition do fire). -/
theorem deck_name_length_never_rejected :
    validate_and_normalize_deck_stuff emptyNamePayload =
      Except.ok emptyNamePayload ∧
    validate_and_normalize_deck_stuff longNamePayload =
      Except.ok longNamePayload :=
  ⟨rfl, rfl⟩

end AnkiSpec
